import Mathlib

/-!
Shallow embedding of the event_manager authentication subsystem:
- app/services/jwt_service.py (create_access_token, decode_token),
- app/schemas/user_schemas.py (UserRole, validate_url, nickname field rules,
  UserUpdate.check_at_least_one_value),
- the login/lockout state machine (modelled from the spec, since the
  user service itself is not among the given source files).

Python dicts are modelled as association lists with unique insertion-order
semantics (setting an existing key updates it in place, a new key is appended
at the end, exactly like CPython dicts).  Machine time is a Nat of seconds
since the epoch; a timedelta is a Nat of seconds.
-/

set_option autoImplicit false

namespace EventManager

/-- The user role enumeration of app/schemas/user_schemas.py
(class UserRole(str, Enum)). -/
inductive UserRole where
  | ANONYMOUS
  | AUTHENTICATED
  | MANAGER
  | ADMIN
deriving DecidableEq, Repr

/-- The string value carried by each UserRole member. -/
def UserRole.val : UserRole → String
  | .ANONYMOUS => "ANONYMOUS"
  | .AUTHENTICATED => "AUTHENTICATED"
  | .MANAGER => "MANAGER"
  | .ADMIN => "ADMIN"

/-- JSON-ish values that can appear in a claim dict: Python None, str, a
non-negative int (timestamps), bool, or a UserRole enum member. -/
inductive JValue where
  | null
  | str (s : String)
  | num (n : Nat)
  | bool (b : Bool)
  | role (r : UserRole)
deriving DecidableEq, Repr

/-- A Python dict with string keys, as an insertion-ordered association list
(real dicts never hold a key twice; setting replaces the first occurrence). -/
abbrev JDict := List (String × JValue)

/-- Python d[k] lookup / `k in d` membership: the first binding of k. -/
def dictGet : JDict → String → Option JValue
  | [], _ => none
  | (k2, v) :: rest, k => if k2 = k then some v else dictGet rest k

/-- Python d[k] = v assignment: update the first binding of k in place,
else append the new binding at the end (CPython dict semantics). -/
def dictSet : JDict → String → JValue → JDict
  | [], k, v => [(k, v)]
  | (k2, v2) :: rest, k, v =>
      if k2 = k then (k, v) :: rest else (k2, v2) :: dictSet rest k v

/-- Python str(v) for the values a claim dict can hold.  For a
(str, Enum) member such as UserRole.ADMIN, str() uses Enum.__str__ and
returns "UserRole.ADMIN" on every CPython version (only enum.StrEnum, which
the source does not use, would return the bare value); the member names of
this enum coincide with their values, so the str() result is
"UserRole." followed by the value string. -/
def pyStr : JValue → String
  | .null => "None"
  | .str s => s
  | .num n => toString n
  | .bool b => if b then "True" else "False"
  | .role r => "UserRole." ++ r.val

/-- Python str.upper() (ASCII; the strings involved here are ASCII). -/
def pyUpper (s : String) : String := String.mk (s.data.map Char.toUpper)

/-- Python int(v) coercion as used by PyJWT on the exp/nbf/iat claims:
ints pass through, bools are 0/1, digit strings parse, everything else
raises (None here). -/
def pyAsInt : JValue → Option Nat
  | .num n => some n
  | .bool b => some (if b then 1 else 0)
  | .str s => s.toNat?
  | _ => none

/-- The configuration surface consumed by the services
(settings.config.settings). -/
structure Settings where
  jwt_secret_key : String
  jwt_algorithm : String
  access_token_expire_minutes : Nat
  max_login_attempts : Nat
deriving DecidableEq, Repr

/-- `expires_delta if expires_delta else timedelta(minutes=settings.access_token_expire_minutes)`,
in seconds.  This is a Python truthiness test, and timedelta(0) is falsy:
both an omitted delta and a zero delta fall back to the configured default. -/
def effectiveExpiresSeconds (st : Settings) (expires_delta : Option Nat) : Nat :=
  match expires_delta with
  | some d => if d = 0 then st.access_token_expire_minutes * 60 else d
  | none => st.access_token_expire_minutes * 60

/-- A serialized JWT on the wire: either a well-formed token recording the
payload it encodes and the secret/algorithm it was signed with (signature
verification succeeds exactly when the verifier holds the same secret and
algorithm), or a malformed string. -/
inductive TokenWire where
  | signed (payload : JDict) (secret : String) (alg : String)
  | malformed (raw : String)
deriving DecidableEq, Repr

/-- app/services/jwt_service.py create_access_token: copy the data dict,
upper-case str() of the role claim when present, set exp to utcnow + delta
(default from settings), and sign with the configured secret and algorithm. -/
def create_access_token (st : Settings) (now : Nat) (data : JDict)
    (expires_delta : Option Nat) : TokenWire :=
  let to_encode := data
  let to_encode :=
    match dictGet to_encode "role" with
    | some v => dictSet to_encode "role" (.str (pyUpper (pyStr v)))
    | none => to_encode
  let expire := now + effectiveExpiresSeconds st expires_delta
  let to_encode := dictSet to_encode "exp" (.num expire)
  TokenWire.signed to_encode st.jwt_secret_key st.jwt_algorithm

/-- PyJWT validation of the iat claim: when present it must be
int-coercible, else DecodeError. -/
def iatClaimOk (p : JDict) : Bool :=
  match dictGet p "iat" with
  | none => true
  | some v => (pyAsInt v).isSome

/-- PyJWT validation of the nbf claim with zero leeway: when present it must
be int-coercible and satisfy nbf <= now, else ImmatureSignatureError. -/
def nbfClaimOk (p : JDict) (now : Nat) : Bool :=
  match dictGet p "nbf" with
  | none => true
  | some v =>
    match pyAsInt v with
    | some nbf => decide (nbf ≤ now)
    | none => false

/-- PyJWT validation of the exp claim with zero leeway: when present it must
be int-coercible and satisfy now < exp, else ExpiredSignatureError. -/
def expClaimOk (p : JDict) (now : Nat) : Bool :=
  match dictGet p "exp" with
  | none => true
  | some v =>
    match pyAsInt v with
    | some e => decide (now < e)
    | none => false

/-- PyJWT jwt.decode(token, key, algorithms=[alg]) with default options and
zero leeway: signature must verify under the given key and algorithm (a
malformed token never verifies); then the registered claims iat, nbf and exp
are validated.  Every failure raises a PyJWTError. -/
def jwtDecode (key : String) (alg : String) (now : Nat) : TokenWire → Option JDict
  | .malformed _ => none
  | .signed p s a =>
    if s = key ∧ a = alg then
      if iatClaimOk p && nbfClaimOk p now && expClaimOk p now then some p
      else none
    else none

/-- app/services/jwt_service.py decode_token: jwt.decode under the configured
secret and algorithm; every PyJWTError is swallowed and None is returned. -/
def decode_token (st : Settings) (now : Nat) (token : TokenWire) : Option JDict :=
  jwtDecode st.jwt_secret_key st.jwt_algorithm now token

/-! ## Heap model of Python dict references

For the frame/aliasing property of create_access_token (the caller's dict is
not mutated) the dicts live in a small heap of cells; `data.copy()` is an
explicit allocation of a fresh cell, and the function's item assignments are
in-place updates of the cell they target. -/

/-- Read cell r (out-of-range reads give the empty dict; the theorems only
quantify over valid references). -/
def getCell : List JDict → Nat → JDict
  | [], _ => []
  | c :: _, 0 => c
  | _ :: rest, Nat.succ n => getCell rest n

/-- Overwrite cell r in place. -/
def setCell : List JDict → Nat → JDict → List JDict
  | [], _, _ => []
  | _ :: rest, 0, d => d :: rest
  | c :: rest, Nat.succ n, d => c :: setCell rest n d

/-- A heap of dict cells; a dict reference is an index into it. -/
structure Heap where
  cells : List JDict
deriving DecidableEq, Repr

def Heap.get (h : Heap) (r : Nat) : JDict := getCell h.cells r

def Heap.set (h : Heap) (r : Nat) (d : JDict) : Heap := ⟨setCell h.cells r d⟩

/-- Allocate a fresh cell holding d; returns the new heap and the reference. -/
def Heap.alloc (h : Heap) (d : JDict) : Heap × Nat :=
  (⟨h.cells ++ [d]⟩, h.cells.length)

/-- create_access_token again, now with the dict mutations explicit:
`to_encode = data.copy()` allocates a fresh cell with the content of the
caller's dict, and the role normalization and exp assignment mutate only that
fresh cell. -/
def create_access_token_heap (st : Settings) (now : Nat) (h : Heap)
    (dataRef : Nat) (expires_delta : Option Nat) : Heap × TokenWire :=
  let alloc := h.alloc (h.get dataRef)
  let h1 := alloc.1
  let te := alloc.2
  let h2 :=
    match dictGet (h1.get te) "role" with
    | some v => h1.set te (dictSet (h1.get te) "role" (.str (pyUpper (pyStr v))))
    | none => h1
  let expire := now + effectiveExpiresSeconds st expires_delta
  let h3 := h2.set te (dictSet (h2.get te) "exp" (.num expire))
  (h3, TokenWire.signed (h3.get te) st.jwt_secret_key st.jwt_algorithm)

/-! ## Identity validation: app/schemas/user_schemas.py -/

/-- Python re's \s character class, ASCII part (the validated strings here
are ASCII; the extra Unicode whitespace code points are not modelled). -/
def pyIsSpace (c : Char) : Bool :=
  c = ' ' || c = '\t' || c = '\n' || c = '\r' || c = '\x0b' || c = '\x0c'

/-- The body of the URL pattern after the scheme:
one char matching [^\s/$.?#], one char matching . (anything but newline),
then [^\s]* to the end. -/
def urlCoreMatch : List Char → Bool
  | c1 :: c2 :: rest =>
      !pyIsSpace c1 && !(c1 = '/' || c1 = '$' || c1 = '.' || c1 = '?' || c1 = '#')
        && !(c2 = '\n') && rest.all (fun c => !pyIsSpace c)
  | _ => false

/-- The https?:\/\/ part of the pattern: strip the scheme from the front of
the character list (the s of https is optional), or fail. -/
def matchScheme : List Char → Option (List Char)
  | 'h' :: 't' :: 't' :: 'p' :: 's' :: ':' :: '/' :: '/' :: rest => some rest
  | 'h' :: 't' :: 't' :: 'p' :: ':' :: '/' :: '/' :: rest => some rest
  | _ => none

/-- re.match(r'^https?:\/\/[^\s/$.?#].[^\s]*$', url) as a Bool.  The $ anchor
matches at the end of the string or just before one trailing newline. -/
def matchesUrlRegex (url : String) : Bool :=
  match matchScheme url.data with
  | none => false
  | some cs =>
    urlCoreMatch cs ||
      (match cs.getLast? with
       | some c => c = '\n' && urlCoreMatch cs.dropLast
       | none => false)

/-- app/schemas/user_schemas.py validate_url: None passes unchanged; a
present value must match the URL regex or ValueError('Invalid URL format')
is raised. -/
def validate_url : Option String → Except String (Option String)
  | none => Except.ok none
  | some url =>
      if matchesUrlRegex url then Except.ok (some url)
      else Except.error "Invalid URL format"

/-- Python re's \w character class, ASCII part ([a-zA-Z0-9_]; the extra
Unicode word characters are not modelled; the nicknames here are ASCII). -/
def pyIsWordChar (c : Char) : Bool := c.isAlphanum || c = '_'

/-- The constraints pydantic enforces on a present nickname value from
UserFields.nickname: min_length=3 and pattern r'^[\w-]+$' (note: the field
declares no max_length). -/
def nicknameValid (s : String) : Bool :=
  decide (3 ≤ s.length) && !s.data.isEmpty
    && s.data.all (fun c => pyIsWordChar c || c = '-')

/-- Python truthiness of a claim/field value, as consumed by
any(values.values()): None, empty string, 0 and False are falsy. -/
def JValue.truthy : JValue → Bool
  | .null => false
  | .str s => !s.isEmpty
  | .num n => decide (n ≠ 0)
  | .bool b => b
  | .role _ => true

/-- The declared field names of UserUpdate (all optional). -/
def recognizedUpdateFields : List String :=
  ["email", "nickname", "first_name", "last_name", "bio",
   "profile_picture_url", "linkedin_profile_url", "github_profile_url"]

/-- UserUpdate.check_at_least_one_value (a pre root validator): it receives
the raw input dict and raises unless any of its values is truthy; otherwise
the values pass through unchanged. -/
def check_at_least_one_value (values : JDict) : Except String JDict :=
  if values.any (fun p => p.2.truthy) then Except.ok values
  else Except.error "At least one field must be provided for update"

/-! ## Login / lockout state machine

The user service implementing login is not among the given source files; only
its test fixtures are (tests/conftest.py: create_user, locked_user).  The
definitions below are modelled from the spec, section 4.2 Account State
Machine. -/

/-- Modelled from the spec: the mutable per-user fields the login flow reads
and writes (the User entity of the data model; tests/conftest.py builds the
same fields). -/
structure User where
  id : String
  hashed_password : String
  role : UserRole
  email_verified : Bool
  is_locked : Bool
  failed_login_attempts : Nat
  last_login_at : Option Nat
deriving DecidableEq, Repr

/-- Modelled from the spec: the Password Hasher interface (app/utils/security
is not among the given source files).  A tagged-plaintext model: verification
succeeds exactly on the hashed plaintext; salting is irrelevant to the
lockout claims. -/
def hash_password (p : String) : String := "bcrypt$" ++ p

/-- Modelled from the spec: verify(plaintext, hash_value). -/
def verify_password (p : String) (h : String) : Bool := h = hash_password p

/-- Modelled from the spec: the outcome surfaced by authenticate. -/
inductive LoginOutcome where
  | success (token : TokenWire)
  | ACCOUNT_LOCKED
  | INVALID_CREDENTIALS
deriving DecidableEq, Repr

/-- Modelled from the spec, section 4.2 login attempt processing:
reject a locked account outright regardless of password correctness; on a
password mismatch increment failed_login_attempts and lock when the new
count reaches max_login_attempts; on a match reset the counter, stamp
last_login_at and issue a token bound to id and role. -/
def login (st : Settings) (now : Nat) (u : User) (password : String) :
    LoginOutcome × User :=
  if u.is_locked then (.ACCOUNT_LOCKED, u)
  else if verify_password password u.hashed_password then
    (.success (create_access_token st now
        [("sub", .str u.id), ("role", .role u.role)] none),
     { u with failed_login_attempts := 0, last_login_at := some now })
  else
    let attempts := u.failed_login_attempts + 1
    if st.max_login_attempts ≤ attempts then
      (.INVALID_CREDENTIALS,
       { u with failed_login_attempts := attempts, is_locked := true })
    else
      (.INVALID_CREDENTIALS, { u with failed_login_attempts := attempts })

/-- Modelled from the spec: the explicit administrative unlock, which resets
is_locked and failed_login_attempts. -/
def unlock (u : User) : User :=
  { u with is_locked := false, failed_login_attempts := 0 }

/-- A sequence of login attempts (time, submitted password) folded over the
account state. -/
def runLogins (st : Settings) (u : User) (attempts : List (Nat × String)) : User :=
  attempts.foldl (fun acc a => (login st a.1 acc a.2).2) u

/-! ## Dict lemmas -/

theorem dictGet_dictSet_self (d : JDict) (k : String) (v : JValue) :
    dictGet (dictSet d k v) k = some v := by
  induction d with
  | nil => simp [dictGet, dictSet]
  | cons p rest ih =>
    obtain ⟨k2, v2⟩ := p
    by_cases h : k2 = k
    · simp [dictSet, dictGet, h]
    · simp [dictSet, dictGet, h, ih]

theorem dictGet_dictSet_ne (d : JDict) (k k2 : String) (v : JValue)
    (h : k ≠ k2) : dictGet (dictSet d k v) k2 = dictGet d k2 := by
  induction d with
  | nil => simp [dictGet, dictSet, h]
  | cons p rest ih =>
    obtain ⟨k3, v3⟩ := p
    by_cases h3 : k3 = k
    · simp [dictSet, dictGet, h3, h]
    · by_cases h4 : k3 = k2
      · simp [dictSet, dictGet, h3, h4, Ne.symm h]
      · simp [dictSet, dictGet, h3, h4, ih]

/-- Each UserRole value string is already upper-case, so str.upper() fixes it. -/
theorem UserRole.upper_val (r : UserRole) : pyUpper r.val = r.val := by
  cases r <;> decide

/-- str() of a UserRole member is "UserRole.<NAME>", so upper-casing it gives
"USERROLE.<NAME>", not the bare canonical value string. -/
theorem pyUpper_pyStr_role (r : UserRole) :
    pyUpper (pyStr (.role r)) = "USERROLE." ++ r.val := by
  cases r <;> decide

/-- Sample configuration used to instantiate proved theorems on concrete
inputs (spec section 6: all values required; 15-minute TTL as in the spec
example, max_login_attempts = 4 as in the spec example). -/
def sampleSettings : Settings := ⟨"test-secret", "HS256", 15, 4⟩

/-! ## Claims about create_access_token -/

/-- C3 counterexample: the claim that the exp claim equals issuance time plus
the given ttl fails at a zero ttl: timedelta(0) is falsy, so the program
falls back to the configured default (here 15 minutes), and the issued exp is
1900, not 1000 + 0. -/
theorem exp_claim_zero_ttl_uses_default :
    ¬ ∀ p, create_access_token sampleSettings 1000
          [("sub", JValue.str "u1")] (some 0)
        = TokenWire.signed p sampleSettings.jwt_secret_key
            sampleSettings.jwt_algorithm →
      dictGet p "exp" = some (JValue.num (1000 + 0)) := by
  intro hclaim
  have h1 : create_access_token sampleSettings 1000
      [("sub", JValue.str "u1")] (some 0)
      = TokenWire.signed [("sub", JValue.str "u1"), ("exp", JValue.num 1900)]
          sampleSettings.jwt_secret_key sampleSettings.jwt_algorithm := by
    decide
  exact absurd (hclaim _ h1) (by decide)

/-- C3 amended: the exp claim of the issued token equals the issuance time
plus the given ttl when the ttl is nonzero; a zero ttl is falsy in Python and
falls back, exactly like an omitted ttl, to the configured
access_token_expire_minutes. -/
theorem exp_claim_is_now_plus_ttl (st : Settings) (now : Nat) (data : JDict)
    (expires_delta : Option Nat) :
    ∃ p, create_access_token st now data expires_delta
        = TokenWire.signed p st.jwt_secret_key st.jwt_algorithm ∧
      (∀ d, expires_delta = some d → d ≠ 0 →
        dictGet p "exp" = some (.num (now + d))) ∧
      (expires_delta = none ∨ expires_delta = some 0 →
        dictGet p "exp" = some (.num (now + st.access_token_expire_minutes * 60))) := by
  refine ⟨_, rfl, ?_, ?_⟩
  · rintro d rfl hd
    rw [dictGet_dictSet_self]
    simp [effectiveExpiresSeconds, hd]
  · rintro (rfl | rfl) <;> rw [dictGet_dictSet_self] <;>
      simp [effectiveExpiresSeconds]

theorem exp_claim_is_now_plus_ttl_witness :
    ∃ p, create_access_token sampleSettings 1000 [("sub", JValue.str "u1")] (some 60)
        = TokenWire.signed p "test-secret" "HS256" ∧
      dictGet p "exp" = some (JValue.num 1060) := by
  obtain ⟨p, h1, h2, h3⟩ :=
    exp_claim_is_now_plus_ttl sampleSettings 1000 [("sub", JValue.str "u1")] (some 60)
  exact ⟨p, h1, h2 60 rfl (by decide)⟩

/-- C9: even when the input claim dict already holds an exp entry, the issued
token's exp claim is the issuance time plus the effective ttl (the configured
default when the ttl is omitted or zero); the input expiry is overwritten,
never kept, so a caller cannot smuggle a longer-lived expiry through the
data. -/
theorem exp_claim_overrides_input (st : Settings) (now : Nat) (data : JDict)
    (expires_delta : Option Nat) (e0 : JValue)
    (_h : dictGet data "exp" = some e0) :
    ∃ p, create_access_token st now data expires_delta
        = TokenWire.signed p st.jwt_secret_key st.jwt_algorithm ∧
      dictGet p "exp"
        = some (.num (now + effectiveExpiresSeconds st expires_delta)) :=
  ⟨_, rfl, dictGet_dictSet_self _ _ _⟩

theorem exp_claim_overrides_input_witness :
    ∃ p, create_access_token sampleSettings 1000 [("exp", JValue.num 999999)] none
        = TokenWire.signed p "test-secret" "HS256" ∧
      dictGet p "exp" = some (JValue.num 1900) :=
  exp_claim_overrides_input sampleSettings 1000 [("exp", JValue.num 999999)]
    none (JValue.num 999999) rfl

/-- C4 counterexample: the claim that a UserRole member in the claim data
yields its canonical string (role ADMIN yields "ADMIN") is false: str() of
the (str, Enum) member is "UserRole.ADMIN", so the embedded role claim is
"USERROLE.ADMIN". -/
theorem role_claim_not_canonical :
    ¬ ∀ p, create_access_token sampleSettings 1000
          [("role", JValue.role UserRole.ADMIN)] none
        = TokenWire.signed p sampleSettings.jwt_secret_key
            sampleSettings.jwt_algorithm →
      dictGet p "role" = some (JValue.str "ADMIN") := by
  intro hclaim
  have h1 : create_access_token sampleSettings 1000
      [("role", JValue.role UserRole.ADMIN)] none
      = TokenWire.signed
          [("role", JValue.str "USERROLE.ADMIN"), ("exp", JValue.num 1900)]
          sampleSettings.jwt_secret_key sampleSettings.jwt_algorithm := by
    decide
  exact absurd (hclaim _ h1) (by decide)

/-- C4 amended: the role claim embedded in the issued token is the
upper-cased str() of the value passed: for a UserRole member r this is
"USERROLE.<NAME>", not the member's bare canonical value; for a role passed
as a plain string it is that string upper-cased, so the canonical fixed-case
claim results exactly when the role is passed as its string value. -/
theorem role_claim_upper_str (st : Settings) (now : Nat) (data : JDict)
    (expires_delta : Option Nat) :
    (∀ r : UserRole, dictGet data "role" = some (.role r) →
      ∃ p, create_access_token st now data expires_delta
          = TokenWire.signed p st.jwt_secret_key st.jwt_algorithm ∧
        dictGet p "role" = some (.str ("USERROLE." ++ r.val))) ∧
    (∀ s : String, dictGet data "role" = some (.str s) →
      ∃ p, create_access_token st now data expires_delta
          = TokenWire.signed p st.jwt_secret_key st.jwt_algorithm ∧
        dictGet p "role" = some (.str (pyUpper s))) ∧
    (∀ r : UserRole, dictGet data "role" = some (.str r.val) →
      ∃ p, create_access_token st now data expires_delta
          = TokenWire.signed p st.jwt_secret_key st.jwt_algorithm ∧
        dictGet p "role" = some (.str r.val)) := by
  refine ⟨?_, ?_, ?_⟩
  · intro r h
    refine ⟨_, rfl, ?_⟩
    rw [h]
    rw [dictGet_dictSet_ne _ _ _ _ (by decide), dictGet_dictSet_self,
      pyUpper_pyStr_role]
  · intro s h
    refine ⟨_, rfl, ?_⟩
    rw [h]
    rw [dictGet_dictSet_ne _ _ _ _ (by decide), dictGet_dictSet_self]
    rfl
  · intro r h
    refine ⟨_, rfl, ?_⟩
    rw [h]
    rw [dictGet_dictSet_ne _ _ _ _ (by decide), dictGet_dictSet_self]
    simp [pyStr, UserRole.upper_val]

theorem role_claim_upper_str_witness :
    ∃ p, create_access_token sampleSettings 1000
        [("role", JValue.role UserRole.ADMIN)] none
        = TokenWire.signed p "test-secret" "HS256" ∧
      dictGet p "role" = some (JValue.str "USERROLE.ADMIN") :=
  (role_claim_upper_str sampleSettings 1000
    [("role", JValue.role UserRole.ADMIN)] none).1 UserRole.ADMIN rfl

/-- The payload created for the standard login claim data
{sub, role}: role replaced in place by the upper-cased str() of the member,
exp appended. -/
theorem create_access_token_sub_role (st : Settings) (now : Nat) (sub : String)
    (r : UserRole) (expires_delta : Option Nat) :
    create_access_token st now [("sub", .str sub), ("role", .role r)] expires_delta
      = TokenWire.signed
          [("sub", .str sub), ("role", .str ("USERROLE." ++ r.val)),
           ("exp", .num (now + effectiveExpiresSeconds st expires_delta))]
          st.jwt_secret_key st.jwt_algorithm := by
  simp [create_access_token, dictGet, dictSet, pyUpper_pyStr_role]

/-- C1 counterexample: the claim that the decoded claim set of a just-issued
token carries the subject and the (canonical) role given at issuance fails on
the role side: issuing for subject u1 with the UserRole member MANAGER and
decoding immediately yields the role claim "USERROLE.MANAGER" (the
upper-cased str() of the member), not "MANAGER". -/
theorem roundtrip_role_not_canonical :
    ¬ ∀ p, decode_token sampleSettings 1000
          (create_access_token sampleSettings 1000
            [("sub", JValue.str "u1"), ("role", JValue.role UserRole.MANAGER)]
            none) = some p →
      dictGet p "sub" = some (JValue.str "u1") ∧
      dictGet p "role" = some (JValue.str "MANAGER") := by
  intro hclaim
  have h1 : decode_token sampleSettings 1000
      (create_access_token sampleSettings 1000
        [("sub", JValue.str "u1"), ("role", JValue.role UserRole.MANAGER)]
        none)
      = some [("sub", JValue.str "u1"),
              ("role", JValue.str "USERROLE.MANAGER"),
              ("exp", JValue.num 1900)] := by
    decide
  exact absurd (hclaim _ h1).2 (by decide)

/-- C1 amended: decoding immediately after issuance, under the same secret
and algorithm, succeeds (given a positive effective ttl) and yields a claim
set whose subject equals the subject given at issuance; the role claim is
the upper-cased str() of the UserRole member given at issuance,
"USERROLE.<NAME>", not the member's canonical value string. -/
theorem create_then_decode_roundtrip (st : Settings) (now : Nat) (sub : String)
    (r : UserRole) (expires_delta : Option Nat)
    (h : 0 < effectiveExpiresSeconds st expires_delta) :
    ∃ p, decode_token st now
        (create_access_token st now
          [("sub", .str sub), ("role", .role r)] expires_delta) = some p ∧
      dictGet p "sub" = some (.str sub) ∧
      dictGet p "role" = some (.str ("USERROLE." ++ r.val)) := by
  refine ⟨[("sub", .str sub), ("role", .str ("USERROLE." ++ r.val)),
           ("exp", .num (now + effectiveExpiresSeconds st expires_delta))],
          ?_, ?_, ?_⟩
  · rw [create_access_token_sub_role]
    simp [decode_token, jwtDecode, iatClaimOk, nbfClaimOk, expClaimOk,
      dictGet, pyAsInt]
    omega
  · simp [dictGet]
  · simp [dictGet]

theorem create_then_decode_roundtrip_witness :
    ∃ p, decode_token sampleSettings 1000
        (create_access_token sampleSettings 1000
          [("sub", JValue.str "u1"), ("role", JValue.role UserRole.MANAGER)]
          none) = some p ∧
      dictGet p "sub" = some (JValue.str "u1") ∧
      dictGet p "role" = some (JValue.str "USERROLE.MANAGER") :=
  create_then_decode_roundtrip sampleSettings 1000 "u1" UserRole.MANAGER none
    (by decide)

/-- C2: decode_token yields claims only for a token signed under the
configured secret and algorithm whose expiry lies strictly in the future;
a malformed token, a signature under another secret or algorithm, or an
expired token each yield the same generic None. -/
theorem decode_token_checks (st : Settings) (now : Nat) :
    (∀ t p, decode_token st now t = some p →
      t = TokenWire.signed p st.jwt_secret_key st.jwt_algorithm ∧
        ∀ e, dictGet p "exp" = some (.num e) → now < e) ∧
    (∀ raw, decode_token st now (TokenWire.malformed raw) = none) ∧
    (∀ p s a, s ≠ st.jwt_secret_key ∨ a ≠ st.jwt_algorithm →
      decode_token st now (TokenWire.signed p s a) = none) ∧
    (∀ p s a e, dictGet p "exp" = some (.num e) → e ≤ now →
      decode_token st now (TokenWire.signed p s a) = none) := by
  refine ⟨?_, ?_, ?_, ?_⟩
  · intro t p h
    cases t with
    | malformed raw => simp [decode_token, jwtDecode] at h
    | signed q s a =>
      simp only [decode_token, jwtDecode] at h
      by_cases hsa : s = st.jwt_secret_key ∧ a = st.jwt_algorithm
      · rw [if_pos hsa] at h
        by_cases hv : iatClaimOk q && nbfClaimOk q now && expClaimOk q now
        · rw [if_pos hv] at h
          injection h with hqp
          subst hqp
          refine ⟨by rw [hsa.1, hsa.2], ?_⟩
          intro e he
          rw [Bool.and_eq_true, Bool.and_eq_true] at hv
          have hexp : expClaimOk q now = true := hv.2
          simp only [expClaimOk, he, pyAsInt] at hexp
          exact of_decide_eq_true hexp
        · rw [if_neg hv] at h
          exact absurd h (by simp)
      · rw [if_neg hsa] at h
        exact absurd h (by simp)
  · intro raw
    simp [decode_token, jwtDecode]
  · intro p s a hne
    simp only [decode_token, jwtDecode]
    rw [if_neg]
    rintro ⟨h1, h2⟩
    rcases hne with h | h
    · exact h h1
    · exact h h2
  · intro p s a e he hle
    have hexp : expClaimOk p now = false := by
      rw [expClaimOk, he]
      simp only [pyAsInt]
      simp [Nat.not_lt.mpr hle]
    simp [decode_token, jwtDecode, hexp]

theorem decode_token_checks_witness :
    decode_token sampleSettings 10
        (TokenWire.signed [("exp", JValue.num 5)] "k" "HS256") = none :=
  (decode_token_checks sampleSettings 10).2.2.2 [("exp", JValue.num 5)]
    "k" "HS256" 5 rfl (by decide)

/-! ## Claims about the lockout state machine (modelled from the spec) -/

theorem login_locked (st : Settings) (now : Nat) (u : User) (pw : String)
    (h : u.is_locked = true) :
    login st now u pw = (LoginOutcome.ACCOUNT_LOCKED, u) := by
  simp [login, h]

theorem runLogins_locked (st : Settings) (attempts : List (Nat × String)) :
    ∀ u : User, u.is_locked = true → runLogins st u attempts = u := by
  induction attempts with
  | nil => intro u _; rfl
  | cons a rest ih =>
    intro u h
    have hstep : runLogins st u (a :: rest)
        = runLogins st (login st a.1 u a.2).2 rest := rfl
    rw [hstep, login_locked st a.1 u a.2 h]
    exact ih u h

theorem login_preserves_bound (st : Settings) (now : Nat) (u : User)
    (pw : String) (hmax : 0 < st.max_login_attempts)
    (_hinv : u.is_locked = false → u.failed_login_attempts < st.max_login_attempts) :
    (login st now u pw).2.is_locked = false →
      (login st now u pw).2.failed_login_attempts < st.max_login_attempts := by
  unfold login
  by_cases hl : u.is_locked
  · simp [hl]
  · by_cases hv : verify_password pw u.hashed_password
    · simp [hl, hv]
      exact hmax
    · by_cases hm : st.max_login_attempts ≤ u.failed_login_attempts + 1
      · simp [hl, hv, hm]
      · simp [hl, hv, hm]
        omega

theorem runLogins_preserves_bound (st : Settings)
    (attempts : List (Nat × String)) (hmax : 0 < st.max_login_attempts) :
    ∀ u : User,
      (u.is_locked = false → u.failed_login_attempts < st.max_login_attempts) →
      ((runLogins st u attempts).is_locked = false →
        (runLogins st u attempts).failed_login_attempts < st.max_login_attempts) := by
  induction attempts with
  | nil => intro u h; exact h
  | cons a rest ih =>
    intro u h
    exact ih (login st a.1 u a.2).2 (login_preserves_bound st a.1 u a.2 hmax h)

/-- C5: a locked account rejects every login attempt, even with the correct
password, with ACCOUNT_LOCKED, its state unchanged; it stays locked under any
sequence of further attempts; only the explicit unlock resets is_locked and
the counter; a failed attempt whose new count reaches max_login_attempts
locks the account; and along any attempt sequence an unlocked account's
counter stays below max_login_attempts (so a counter at the maximum implies
the account is locked). -/
theorem lockout_policy (st : Settings) (u : User) (password : String)
    (now : Nat) (attempts : List (Nat × String))
    (hmax : 0 < st.max_login_attempts) (h : u.is_locked = true) :
    (login st now u password).1 = LoginOutcome.ACCOUNT_LOCKED ∧
    (login st now u password).2 = u ∧
    (runLogins st u attempts).is_locked = true ∧
    ((unlock u).is_locked = false ∧ (unlock u).failed_login_attempts = 0) ∧
    (∀ u2 pw2, u2.is_locked = false →
      verify_password pw2 u2.hashed_password = false →
      st.max_login_attempts ≤ u2.failed_login_attempts + 1 →
      (login st now u2 pw2).2.is_locked = true ∧
        (login st now u2 pw2).1 = LoginOutcome.INVALID_CREDENTIALS) ∧
    (∀ u3 : User,
      (u3.is_locked = false → u3.failed_login_attempts < st.max_login_attempts) →
      ((runLogins st u3 attempts).is_locked = false →
        (runLogins st u3 attempts).failed_login_attempts < st.max_login_attempts)) := by
  refine ⟨?_, ?_, ?_, ⟨rfl, rfl⟩, ?_, ?_⟩
  · rw [login_locked st now u password h]
  · rw [login_locked st now u password h]
  · rw [runLogins_locked st attempts u h, h]
  · intro u2 pw2 hl hv hm
    constructor <;> simp [login, hl, hv, hm]
  · intro u3 h3
    exact runLogins_preserves_bound st attempts hmax u3 h3

/-- The locked_user fixture of tests/conftest.py: is_locked true with
failed_login_attempts at settings.max_login_attempts; its password is
"pw" so the witness shows even the correct password is rejected. -/
def lockedUser : User :=
  ⟨"locked-user", hash_password "pw", UserRole.AUTHENTICATED,
   false, true, sampleSettings.max_login_attempts, none⟩

theorem lockout_policy_witness :
    (login sampleSettings 0 lockedUser "pw").1
        = LoginOutcome.ACCOUNT_LOCKED ∧
    (runLogins sampleSettings lockedUser [(1, "pw"), (2, "pw")]).is_locked
        = true := by
  have h := lockout_policy sampleSettings lockedUser "pw" 0
    [(1, "pw"), (2, "pw")] (by decide) rfl
  exact ⟨h.1, h.2.2.1⟩

/-! ## Claims about identity validation -/

/-- C6 counterexample: the claim "accepts when at least one recognized field
is present" is false: the payload with the recognized field bio present and
bound to the empty string is still rejected, because the validator tests
Python truthiness of the values, not presence. -/
theorem update_with_present_field_rejected :
    ¬ ∀ values : JDict,
        (∃ k, k ∈ recognizedUpdateFields ∧ (dictGet values k).isSome = true) →
        ∃ q, check_at_least_one_value values = Except.ok q := by
  intro hclaim
  obtain ⟨q, hq⟩ := hclaim [("bio", JValue.str "")]
    ⟨"bio", by decide, rfl⟩
  have hq2 : check_at_least_one_value [("bio", JValue.str "")]
      = Except.error "At least one field must be provided for update" := rfl
  rw [hq2] at hq
  exact Except.noConfusion hq

/-- C6 amended: UserUpdate.check_at_least_one_value accepts the payload iff
some value in it is truthy in Python's sense; in particular a payload whose
values are all null/absent is rejected with the EMPTY_UPDATE error, but so is
one whose present values are all falsy (empty strings, 0, False). -/
theorem update_requires_truthy_value (values : JDict) :
    (check_at_least_one_value values = Except.ok values ↔
      values.any (fun p => p.2.truthy) = true) ∧
    ((∀ p ∈ values, p.2 = JValue.null) →
      check_at_least_one_value values
        = Except.error "At least one field must be provided for update") := by
  constructor
  · unfold check_at_least_one_value
    by_cases h : values.any (fun p => p.2.truthy) = true
    · simp [h]
    · simp [h]
  · intro hnull
    unfold check_at_least_one_value
    rw [if_neg]
    intro hany
    obtain ⟨p, hp, htr⟩ := List.any_eq_true.mp hany
    rw [hnull p hp] at htr
    exact Bool.noConfusion htr

theorem update_requires_truthy_value_witness :
    check_at_least_one_value [("bio", JValue.null), ("email", JValue.null)]
      = Except.error "At least one field must be provided for update" :=
  (update_requires_truthy_value
    [("bio", JValue.null), ("email", JValue.null)]).2 (by decide)

/-- C7: on the optional URL fields, a null/absent value always passes
validation; a present value passes exactly when it matches the source's URL
shape regexp (https?://, then one character outside whitespace and /$.?#,
then at least one more character, no whitespace), and otherwise is rejected
with the 'Invalid URL format' error. -/
theorem url_field_validation (u : String) :
    validate_url none = Except.ok none ∧
    (matchesUrlRegex u = true → validate_url (some u) = Except.ok (some u)) ∧
    (matchesUrlRegex u = false →
      validate_url (some u) = Except.error "Invalid URL format") := by
  refine ⟨rfl, ?_, ?_⟩ <;> intro h <;> simp [validate_url, h]

theorem url_field_validation_witness :
    validate_url (some "https://example.com/profiles/john.jpg")
        = Except.ok (some "https://example.com/profiles/john.jpg") ∧
    validate_url (some "not-a-url") = Except.error "Invalid URL format" :=
  ⟨(url_field_validation "https://example.com/profiles/john.jpg").2.1 (by decide),
   (url_field_validation "not-a-url").2.2 (by decide)⟩

/-- A nickname of n+3 repeated letters is accepted, whatever n is. -/
theorem nickname_replicate_valid (n : Nat) :
    nicknameValid (String.mk (List.replicate (n + 3) 'a')) = true := by
  have hlen : (String.mk (List.replicate (n + 3) 'a')).length = n + 3 := by
    simp [String.length]
  unfold nicknameValid
  rw [hlen, Bool.and_eq_true, Bool.and_eq_true]
  refine ⟨⟨?_, ?_⟩, ?_⟩
  · simp
  · simp
  · rw [List.all_eq_true]
    intro c hc
    rw [List.eq_of_mem_replicate hc]
    decide

/-- C8 counterexample: the nickname field has no upper length bound: for
every candidate bound there is an accepted nickname longer than it. -/
theorem nickname_no_upper_bound :
    ¬ ∃ B : Nat, ∀ s : String, nicknameValid s = true → s.length ≤ B := by
  rintro ⟨B, hB⟩
  have h := hB _ (nickname_replicate_valid B)
  have hlen : (String.mk (List.replicate (B + 3) 'a')).length = B + 3 := by
    simp [String.length]
  rw [hlen] at h
  omega

/-- C8 amended: a present nickname is accepted iff its length is at least 3
and all its characters are alphanumeric, hyphen or underscore; there is a
lower bound (3) but no upper bound on its length. -/
theorem nickname_charset_and_lower_bound (s : String) :
    (nicknameValid s = true ↔
      3 ≤ s.length ∧ ∀ c ∈ s.data, (pyIsWordChar c || c = '-') = true) ∧
    (∀ n : Nat, ∃ s2 : String, nicknameValid s2 = true ∧ n ≤ s2.length) := by
  constructor
  · constructor
    · intro h
      unfold nicknameValid at h
      rw [Bool.and_eq_true, Bool.and_eq_true] at h
      exact ⟨of_decide_eq_true h.1.1, List.all_eq_true.mp h.2⟩
    · rintro ⟨h1, h2⟩
      unfold nicknameValid
      rw [Bool.and_eq_true, Bool.and_eq_true]
      refine ⟨⟨?_, ?_⟩, ?_⟩
      · exact decide_eq_true h1
      · have h0 : ¬s.data = [] := by
          intro hnil
          have h1b : 3 ≤ s.data.length := h1
          rw [hnil] at h1b
          simp at h1b
        simp [h0]
      · exact List.all_eq_true.mpr h2
  · intro n
    refine ⟨String.mk (List.replicate (n + 3) 'a'),
      nickname_replicate_valid n, ?_⟩
    have hlen : (String.mk (List.replicate (n + 3) 'a')).length = n + 3 := by
      simp [String.length]
    omega

theorem nickname_charset_and_lower_bound_witness :
    nicknameValid "john_doe" = true :=
  ((nickname_charset_and_lower_bound "john_doe").1).mpr
    ⟨by decide, by decide⟩

/-! ## Heap lemmas and the frame claim -/

theorem getCell_append_lt (l l2 : List JDict) (j : Nat) (h : j < l.length) :
    getCell (l ++ l2) j = getCell l j := by
  induction l generalizing j with
  | nil => simp at h
  | cons c rest ih =>
    cases j with
    | zero => rfl
    | succ n =>
      have : n < rest.length := by simpa using h
      exact ih n this

theorem getCell_append_length (l : List JDict) (d : JDict) :
    getCell (l ++ [d]) l.length = d := by
  induction l with
  | nil => rfl
  | cons c rest ih => exact ih

theorem getCell_setCell_ne (l : List JDict) (i j : Nat) (d : JDict)
    (h : i ≠ j) : getCell (setCell l i d) j = getCell l j := by
  induction l generalizing i j with
  | nil => rfl
  | cons c rest ih =>
    cases i with
    | zero =>
      cases j with
      | zero => exact absurd rfl h
      | succ m => rfl
    | succ n =>
      cases j with
      | zero => rfl
      | succ m => exact ih n m (fun hh => h (by rw [hh]))

theorem getCell_setCell_eq (l : List JDict) (i : Nat) (d : JDict)
    (h : i < l.length) : getCell (setCell l i d) i = d := by
  induction l generalizing i with
  | nil => simp at h
  | cons c rest ih =>
    cases i with
    | zero => rfl
    | succ n =>
      have : n < rest.length := by simpa using h
      exact ih n this

theorem length_setCell (l : List JDict) (i : Nat) (d : JDict) :
    (setCell l i d).length = l.length := by
  induction l generalizing i with
  | nil => rfl
  | cons c rest ih =>
    cases i with
    | zero => rfl
    | succ n => simp [setCell, ih n]

/-- C10: create_access_token never mutates the caller's dict: after the call
the cell the caller passed in holds exactly what it held before (all updates
hit the fresh copy), and the token produced agrees with the pure function of
the original content. -/
theorem create_access_token_no_mutation (st : Settings) (now : Nat) (h : Heap)
    (dataRef : Nat) (expires_delta : Option Nat)
    (hr : dataRef < h.cells.length) :
    (create_access_token_heap st now h dataRef expires_delta).1.get dataRef
        = h.get dataRef ∧
    (create_access_token_heap st now h dataRef expires_delta).2
        = create_access_token st now (h.get dataRef) expires_delta := by
  have hne : h.cells.length ≠ dataRef := fun hh => absurd hh.symm (Nat.ne_of_lt hr)
  constructor
  · simp only [create_access_token_heap, Heap.alloc, Heap.get, Heap.set]
    rw [getCell_append_length]
    cases hrole : dictGet (getCell h.cells dataRef) "role" with
    | none =>
      simp only [hrole]
      rw [getCell_setCell_ne _ _ _ _ hne, getCell_append_lt _ _ _ hr]
    | some v =>
      simp only [hrole]
      rw [getCell_setCell_ne _ _ _ _ hne, getCell_setCell_ne _ _ _ _ hne,
        getCell_append_lt _ _ _ hr]
  · simp only [create_access_token_heap, create_access_token, Heap.alloc,
      Heap.get, Heap.set]
    rw [getCell_append_length]
    cases hrole : dictGet (getCell h.cells dataRef) "role" with
    | none =>
      simp only [hrole]
      rw [getCell_setCell_eq, getCell_append_length]
      simp [List.length_append]
    | some v =>
      simp only [hrole]
      rw [getCell_setCell_eq, getCell_setCell_eq]
      all_goals simp [length_setCell, List.length_append]

/-- A one-cell heap whose cell holds the standard claim data. -/
def sampleHeap : Heap := ⟨[[("sub", JValue.str "u1")]]⟩

theorem create_access_token_no_mutation_witness :
    (create_access_token_heap sampleSettings 1000 sampleHeap 0 none).1.get 0
        = sampleHeap.get 0 ∧
    (create_access_token_heap sampleSettings 1000 sampleHeap 0 none).2
        = create_access_token sampleSettings 1000 (sampleHeap.get 0) none :=
  create_access_token_no_mutation sampleSettings 1000 sampleHeap 0 none
    (by decide)

end EventManager
